import Mathlib

/-!
Shallow embedding of the interactive tiling-resize subsystem of `cosmic-comp`
(`src/shell/layout/tiling/grabs/resize.rs`): the `ResizeForkTarget` pointer-focus
object, the `ResizeForkGrab` pointer grab, and the size-redistribution algorithm
executed on pointer motion.

Modelling conventions:
* `f64` pointer coordinates become `ℚ`; `f64::round` (ties away from zero) is
  `roundHalfAway`.
* `i32` sizes become `Int` (the logical coordinates involved are far from the
  `i32` range limits, so wrapping is not modelled).
* `id_tree::Tree` becomes an association list from node ids (`Nat`) to a node's
  payload (`Data`) and its ordered list of child ids.
* Rust indexing panics (`sizes[idx]`, `unwrap`, `unreachable!`) are mapped to an
  explicit `Outcome.panicked` result; `handle.unset_grab` is the
  `Outcome.unsetGrab` result.
* Smithay plumbing that only forwards events (`handle.motion`, `handle.button`,
  cursor shape changes) carries no tree state and is modelled where a claim
  needs it, as noted on each definition.
-/

namespace CosmicComp

/-- Orientation of a tiling `Group` (`src/shell/layout/mod.rs`, used throughout
`resize.rs`). -/
inductive Orientation where
  | Horizontal
  | Vertical
deriving DecidableEq, Repr

/-- The payload of a tree node, from `Data` in `src/shell/layout/tiling/mod.rs`:
either a `Group` (with its orientation and per-child sizes; further fields of
the Rust enum variant are unused by `resize.rs` and omitted) or a window leaf
(any non-`Group` payload, which `ResizeForkGrab::motion` treats as
`unreachable!`). -/
inductive Data where
  | Group (orientation : Orientation) (sizes : List Int)
  | Window
deriving DecidableEq, Repr

/-- A pointer location (`Point<f64, Logical>`), with `ℚ` standing in for `f64`. -/
structure Point where
  x : ℚ
  y : ℚ
deriving DecidableEq, Repr

/-- Rust `f64::round`: round half away from zero. -/
def roundHalfAway (q : ℚ) : Int :=
  if 0 ≤ q then (q + 1/2).floor else -(((-q) + 1/2).floor)

/-- One node of an `id_tree::Tree`: its payload and its ordered child ids
(`tree.children_ids`). -/
structure NodeEntry where
  data : Data
  children : List Nat
deriving DecidableEq, Repr

/-- A tiling tree: association list from node id to node entry.  `tree.get`
is `lookupAssoc`. -/
structure Tree where
  nodes : List (Nat × NodeEntry)
deriving DecidableEq, Repr

/-- First-match association-list lookup (models map/tree lookup by id). -/
def lookupAssoc {α : Type} : List (Nat × α) → Nat → Option α
  | [], _ => none
  | (k, v) :: rest, key => if k = key then some v else lookupAssoc rest key

/-- First-match association-list update (models `get_mut` followed by a write). -/
def setAssoc {α : Type} : List (Nat × α) → Nat → α → List (Nat × α)
  | [], _, _ => []
  | (k, v) :: rest, key, new =>
      if k = key then (k, new) :: rest else (k, v) :: setAssoc rest key new

/-- Rewrite the payload of node `key`, keeping its children (models
`tree.get_mut(&node).unwrap().data_mut()` mutation). -/
def setNodeData : List (Nat × NodeEntry) → Nat → Data → List (Nat × NodeEntry)
  | [], _, _ => []
  | (k, e) :: rest, key, d =>
      if k = key then (k, { e with data := d }) :: rest
      else (k, e) :: setNodeData rest key d

/-- Replace the last element of a list (models `queue.trees.back_mut()`
mutation of the most recent tree). -/
def replaceLast {α : Type} (l : List α) (a : α) : List α :=
  l.dropLast ++ [a]

/-- Combined minimum extent of two adjacent panes, by the group's own
orientation (`resize.rs` lines 152-159: `720` Vertical, `480` Horizontal). -/
def groupMin : Orientation → Int
  | Orientation.Vertical => 720
  | Orientation.Horizontal => 480

/-- Per-pane minimum extent, by the grab's stored orientation
(`resize.rs` lines 162-176: `360` Vertical, `240` Horizontal). -/
def sizeMin : Orientation → Int
  | Orientation.Vertical => 360
  | Orientation.Horizontal => 240

/-- The size-redistribution step of `ResizeForkGrab::motion`
(`resize.rs` lines 152-178), acting on a `Group`'s `sizes`.
`orient` is the group's own orientation (used by the combined-minimum guard);
`grabOrient` is `self.orientation` (used for both per-pane floors).
Returns `none` when the guard takes the early `return;` (no mutation at all),
otherwise the mutated list: the source writes `sizes[i]`, then `sizes[i+1]`,
then adds `next_diff` back onto `sizes[i]`; the two indices are distinct so the
net effect below is identical. -/
def resizeSizes (orient grabOrient : Orientation) (leftUpIdx : Nat) (delta : Int)
    (sizes : List Int) : Option (List Int) :=
  if sizes.getD leftUpIdx 0 + sizes.getD (leftUpIdx + 1) 0 < groupMin orient then
    none
  else
    let oldSize := sizes.getD leftUpIdx 0
    let newLeft := max (oldSize + delta) (sizeMin grabOrient)
    let diff := oldSize - newLeft
    let nextSize := sizes.getD (leftUpIdx + 1) 0 + diff
    let newRight := max nextSize (sizeMin grabOrient)
    let nextDiff := nextSize - newRight
    some ((sizes.set leftUpIdx (newLeft + nextDiff)).set (leftUpIdx + 1) newRight)

/-- The projected, rounded pointer delta of `ResizeForkGrab::motion`
(`resize.rs` lines 124 and 131-135): the x-component of
`event.location - last_loc` for a Vertical grab orientation, the y-component
for Horizontal, rounded as `f64::round` then cast to `i32`. -/
def projectDelta (o : Orientation) (loc lastLoc : Point) : Int :=
  roundHalfAway
    (match o with
     | Orientation.Vertical => loc.x - lastLoc.x
     | Orientation.Horizontal => loc.y - lastLoc.y)

/-- `PointerGrabStartData` as built in `ResizeForkTarget::button` (`focus: None`,
the pressed button, and the pointer location). -/
structure GrabStartData where
  button : Nat
  location : Point
deriving DecidableEq, Repr

/-- The active grab state (`ResizeForkGrab`, `resize.rs` lines 104-111).
`output` models the `WeakOutput`: `some out` when `upgrade()` succeeds and
resolves to output id `out`, `none` when the output is gone. -/
structure ResizeForkGrab where
  startData : GrabStartData
  lastLoc : Point
  node : Nat
  output : Option Nat
  leftUpIdx : Nat
  orientation : Orientation
deriving DecidableEq, Repr

/-- The shell state visible to `ResizeForkGrab::motion`: per-output queues of
trees (`tiling_layer.queues`; the grab only ever touches the most recent tree,
`queue.trees.back_mut()`) and the pending blockers
(`tiling_layer.pending_blockers`), with a blocker identified by the id of the
node whose geometry it synchronizes. -/
structure Shell where
  queues : List (Nat × List Tree)
  pendingBlockers : List Nat
deriving DecidableEq, Repr

/-- A pointer motion event (`MotionEvent`). -/
structure MotionEvent where
  location : Point
  serial : Nat
  time : Nat
deriving DecidableEq, Repr

/-- Modelled from the spec: `TilingLayout::update_positions` is code of this
repository that is not under `src/` — only its caller is.  Per the spec (§2,
§4.4) it recomputes rectangles for every node from the tree's sizes and
orientation and "emits synchronization tokens (blockers) for surfaces whose
geometry changed".  We model it as emitting one blocker per node whose stored
entry changed relative to the tree state before the mutation. -/
def update_positions (oldTree newTree : Tree) : List Nat :=
  (newTree.nodes.map Prod.fst).filter
    (fun n => decide (lookupAssoc oldTree.nodes n ≠ lookupAssoc newTree.nodes n))

/-- Everything `ResizeForkGrab::motion` can do besides (possibly) writing state:
`skipped` — output did not resolve or no queue for it, nothing happens;
`unsetGrab` — `handle.unset_grab` was called (grab terminated);
`vetoed` — the combined-minimum guard took the early `return;`;
`applied` — the sizes were rewritten, `last_loc` updated, blockers enqueued;
`panicked` — a Rust panic (`unwrap` on an empty queue, `unreachable!` on a
non-`Group` node, or out-of-bounds `sizes` indexing). -/
inductive Outcome where
  | skipped
  | unsetGrab
  | vetoed
  | applied
  | panicked
deriving DecidableEq, Repr

/-- `ResizeForkGrab::motion` (`resize.rs` lines 114-191).  The initial
`handle.motion(data, None, event)` forwards the event with no focus target and
touches none of the state modelled here.  Returns the grab state after the
event, the shell state after the event, and the outcome. -/
def grabMotion (g : ResizeForkGrab) (sh : Shell) (event : MotionEvent) :
    ResizeForkGrab × Shell × Outcome :=
  match g.output with
  | none => (g, sh, Outcome.skipped)
  | some out =>
    match lookupAssoc sh.queues out with
    | none => (g, sh, Outcome.skipped)
    | some trees =>
      match trees.getLast? with
      | none => (g, sh, Outcome.panicked)
      | some tree =>
        match lookupAssoc tree.nodes g.node with
        | none => (g, sh, Outcome.unsetGrab)
        | some entry =>
          let delta : Int := projectDelta g.orientation event.location g.lastLoc
          if entry.children.length < g.leftUpIdx + 2 then
            (g, sh, Outcome.unsetGrab)
          else
            match entry.data with
            | Data.Window => (g, sh, Outcome.panicked)
            | Data.Group orient sizes =>
              if g.leftUpIdx + 1 < sizes.length then
                match resizeSizes orient g.orientation g.leftUpIdx delta sizes with
                | none => (g, sh, Outcome.vetoed)
                | some newSizes =>
                  let newTree : Tree :=
                    ⟨setNodeData tree.nodes g.node (Data.Group orient newSizes)⟩
                  let blockers := update_positions tree newTree
                  ({ g with lastLoc := event.location },
                   { queues := setAssoc sh.queues out (replaceLast trees newTree),
                     pendingBlockers := sh.pendingBlockers ++ blockers },
                   Outcome.applied)
              else (g, sh, Outcome.panicked)

/-- Button press state (smithay `ButtonState`). -/
inductive ButtonState where
  | Pressed
  | Released
deriving DecidableEq, Repr

/-- A pointer button event (`ButtonEvent`). -/
structure ButtonEvent where
  button : Nat
  state : ButtonState
  serial : Nat
  time : Nat
deriving DecidableEq, Repr

/-- Modelled from the spec: the pressed-button bookkeeping of the default
pointer handling (`handle.button` and `handle.current_pressed()` live in
smithay, outside this repository's sources).  Per the spec (§4.3), forwarding
a button event to default handling first keeps the "which buttons are held"
set correct: a press adds the button, a release removes it. -/
def pointerDefaultButton (pressed : List Nat) (ev : ButtonEvent) : List Nat :=
  match ev.state with
  | ButtonState.Pressed =>
      if pressed.contains ev.button then pressed else ev.button :: pressed
  | ButtonState.Released => pressed.filter (fun b => decide (b ≠ ev.button))

/-- `ResizeForkGrab::button` (`resize.rs` lines 204-215): forward to default
handling first, then call `handle.unset_grab` iff no buttons remain pressed.
Returns the pressed set after forwarding, and the number of `unset_grab`
calls made while handling the event. -/
def grabButton (pressed : List Nat) (ev : ButtonEvent) : List Nat × Nat :=
  let pressedAfter := pointerDefaultButton pressed ev
  if pressedAfter.isEmpty then (pressedAfter, 1) else (pressedAfter, 0)

/-- `ResizeForkTarget` (`resize.rs` lines 24-30), with the `WeakOutput`
modelled as in `ResizeForkGrab`. -/
structure ResizeForkTarget where
  node : Nat
  output : Option Nat
  leftUpIdx : Nat
  orientation : Orientation
deriving DecidableEq, Repr

/-- The data captured by the closure that `ResizeForkTarget::button` hands to
`event_loop_handle.insert_idle` (`resize.rs` lines 62-68): everything needed
to build the grab when the deferred task later runs. -/
structure ScheduledGrabTask where
  node : Nat
  output : Option Nat
  leftUpIdx : Nat
  orientation : Orientation
  serial : Nat
  button : Nat
deriving DecidableEq, Repr

/-- The per-seat state a `ResizeForkTarget` can touch: the event loop's idle
task queue and the currently installed pointer grab.  The target's handlers
never access any tree state. -/
structure SeatState where
  idleQueue : List ScheduledGrabTask
  grab : Option ResizeForkGrab
deriving DecidableEq, Repr

/-- `ResizeForkTarget::button` (`resize.rs` lines 60-91): only a press of the
primary button (`0x110`) does anything, and what it does is append an idle
task — the grab itself is not installed synchronously during dispatch. -/
def targetButton (t : ResizeForkTarget) (st : SeatState) (ev : ButtonEvent) :
    SeatState :=
  if ev.button = 0x110 ∧ ev.state = ButtonState.Pressed then
    { st with idleQueue := st.idleQueue ++
        [{ node := t.node, output := t.output, leftUpIdx := t.leftUpIdx,
           orientation := t.orientation, serial := ev.serial, button := ev.button }] }
  else st

/-- Running a queued idle task (`resize.rs` lines 69-89): read the pointer's
current location and install the `ResizeForkGrab` seeded with that location as
both the start-data location and `last_loc`, plus the captured target fields. -/
def runScheduledGrab (task : ScheduledGrabTask) (pointerLoc : Point)
    (st : SeatState) : SeatState :=
  { st with
    grab := some
      ({ startData := { button := task.button, location := pointerLoc },
         lastLoc := pointerLoc, node := task.node, output := task.output,
         leftUpIdx := task.leftUpIdx, orientation := task.orientation }) }

/-- `ResizeForkTarget::motion` (`resize.rs` line 93): empty body, no state
change. -/
def targetMotion (_t : ResizeForkTarget) (st : SeatState) (_ev : MotionEvent) :
    SeatState := st

/-- `ResizeForkTarget::relative_motion` (`resize.rs` lines 94-100): empty
body, no state change. -/
def targetRelativeMotion (_t : ResizeForkTarget) (st : SeatState) : SeatState := st

/-- `ResizeForkTarget::axis` (`resize.rs` line 101): empty body, no state
change. -/
def targetAxis (_t : ResizeForkTarget) (st : SeatState) : SeatState := st

/-! ## Helper lemmas -/

theorem getD_set_self (l : List Int) (i : Nat) (a : Int) (h : i < l.length) :
    (l.set i a).getD i 0 = a := by
  induction l generalizing i with
  | nil => simp at h
  | cons x xs ih =>
    cases i with
    | zero => rfl
    | succ n =>
      simp only [List.set, List.getD_cons_succ]
      exact ih n (Nat.lt_of_succ_lt_succ h)

theorem getD_set_ne (l : List Int) (i j : Nat) (a : Int) (h : i ≠ j) :
    (l.set i a).getD j 0 = l.getD j 0 := by
  induction l generalizing i j with
  | nil => rfl
  | cons x xs ih =>
    cases i with
    | zero =>
      cases j with
      | zero => exact absurd rfl h
      | succ m => rfl
    | succ n =>
      cases j with
      | zero => rfl
      | succ m =>
        simp only [List.set, List.getD_cons_succ]
        exact ih n m (fun hnm => h (by rw [hnm]))

theorem set_getD_self (l : List Int) (i : Nat) (h : i < l.length) :
    l.set i (l.getD i 0) = l := by
  induction l generalizing i with
  | nil => rfl
  | cons x xs ih =>
    cases i with
    | zero => rfl
    | succ n =>
      simp only [List.set, List.getD_cons_succ, List.cons.injEq, true_and]
      exact ih n (Nat.lt_of_succ_lt_succ h)

theorem getD_set_pair (l : List Int) (i : Nat) (x y : Int) (h : i + 1 < l.length) :
    ((l.set i x).set (i + 1) y).getD i 0 = x ∧
    ((l.set i x).set (i + 1) y).getD (i + 1) 0 = y := by
  constructor
  · rw [getD_set_ne _ _ _ _ (by omega), getD_set_self _ _ _ (by omega)]
  · rw [getD_set_self]
    simpa using h

theorem setAssoc_lookup_self {α : Type} (l : List (Nat × α)) (key : Nat) (v : α)
    (h : lookupAssoc l key = some v) : setAssoc l key v = l := by
  induction l with
  | nil => simp [lookupAssoc] at h
  | cons p rest ih =>
    obtain ⟨k, w⟩ := p
    by_cases hk : k = key
    · simp only [lookupAssoc] at h
      rw [if_pos hk] at h
      simp only [setAssoc]
      rw [if_pos hk, Option.some.inj h]
    · simp only [lookupAssoc] at h
      rw [if_neg hk] at h
      simp only [setAssoc]
      rw [if_neg hk, ih h]

theorem setNodeData_lookup_self (nodes : List (Nat × NodeEntry)) (key : Nat)
    (e : NodeEntry) (h : lookupAssoc nodes key = some e) :
    setNodeData nodes key e.data = nodes := by
  induction nodes with
  | nil => simp [lookupAssoc] at h
  | cons p rest ih =>
    obtain ⟨k, w⟩ := p
    by_cases hk : k = key
    · simp only [lookupAssoc] at h
      rw [if_pos hk] at h
      obtain rfl := Option.some.inj h
      simp only [setNodeData]
      rw [if_pos hk]
    · simp only [lookupAssoc] at h
      rw [if_neg hk] at h
      simp only [setNodeData]
      rw [if_neg hk, ih h]

theorem replaceLast_getLast {α : Type} (l : List α) (a : α) (h : l.getLast? = some a) :
    replaceLast l a = l := by
  induction l with
  | nil => simp [List.getLast?] at h
  | cons x xs ih =>
    cases xs with
    | nil =>
      simp only [List.getLast?_singleton, Option.some.injEq] at h
      simp [replaceLast, h]
    | cons y ys =>
      rw [List.getLast?_cons_cons] at h
      have := ih h
      simp only [replaceLast] at this ⊢
      rw [List.dropLast_cons₂, List.cons_append, this]

theorem update_positions_self (t : Tree) : update_positions t t = [] := by
  simp [update_positions]

theorem groupMin_eq_two_sizeMin (o : Orientation) : groupMin o = 2 * sizeMin o := by
  cases o <;> rfl

/-- When neither per-pane clamp triggers, the redistribution writes exactly
`a + d` and `b - d`. -/
theorem resizeSizes_unclamped (orient grabOrient : Orientation) (i : Nat)
    (sizes : List Int) (d : Int)
    (hguard : ¬ sizes.getD i 0 + sizes.getD (i + 1) 0 < groupMin orient)
    (hleft : sizeMin grabOrient ≤ sizes.getD i 0 + d)
    (hright : sizeMin grabOrient ≤ sizes.getD (i + 1) 0 - d) :
    resizeSizes orient grabOrient i d sizes =
      some ((sizes.set i (sizes.getD i 0 + d)).set (i + 1) (sizes.getD (i + 1) 0 - d)) := by
  simp only [resizeSizes, if_neg hguard]
  rw [max_eq_left hleft]
  have h1 : sizes.getD (i + 1) 0 + (sizes.getD i 0 - (sizes.getD i 0 + d)) =
      sizes.getD (i + 1) 0 - d := by omega
  rw [h1, max_eq_left hright]
  have h2 : sizes.getD i 0 + d + (sizes.getD (i + 1) 0 - d - (sizes.getD (i + 1) 0 - d)) =
      sizes.getD i 0 + d := by omega
  rw [h2]

/-- A zero-delta redistribution on a pair already at or above the per-pane
floor rewrites both entries to their current values, leaving `sizes` equal. -/
theorem resizeSizes_zero_delta (orient grabOrient : Orientation) (i : Nat)
    (sizes : List Int)
    (hlen : i + 1 < sizes.length)
    (hguard : ¬ sizes.getD i 0 + sizes.getD (i + 1) 0 < groupMin orient)
    (ha : sizeMin grabOrient ≤ sizes.getD i 0)
    (hb : sizeMin grabOrient ≤ sizes.getD (i + 1) 0) :
    resizeSizes orient grabOrient i 0 sizes = some sizes := by
  rw [resizeSizes_unclamped orient grabOrient i sizes 0 hguard (by omega) (by omega)]
  rw [add_zero, sub_zero, set_getD_self sizes i (by omega), set_getD_self sizes (i + 1) hlen]

/-! ## Claims about the redistribution algorithm -/

/-- C2: when neither per-pane clamp triggers (`a + d` and `b - d` both at or
above the per-pane minimum) and the combined-minimum guard passes, the resize
mutation sets the pair to exactly `a + d` and `b - d`, conserving the pair sum. -/
theorem C2_unclamped_conservation (orient grabOrient : Orientation) (i : Nat)
    (sizes : List Int) (d : Int)
    (hlen : i + 1 < sizes.length)
    (hguard : ¬ sizes.getD i 0 + sizes.getD (i + 1) 0 < groupMin orient)
    (hleft : sizeMin grabOrient ≤ sizes.getD i 0 + d)
    (hright : sizeMin grabOrient ≤ sizes.getD (i + 1) 0 - d) :
    resizeSizes orient grabOrient i d sizes =
      some ((sizes.set i (sizes.getD i 0 + d)).set (i + 1) (sizes.getD (i + 1) 0 - d)) ∧
    ((sizes.set i (sizes.getD i 0 + d)).set (i + 1) (sizes.getD (i + 1) 0 - d)).getD i 0 =
      sizes.getD i 0 + d ∧
    ((sizes.set i (sizes.getD i 0 + d)).set (i + 1) (sizes.getD (i + 1) 0 - d)).getD (i + 1) 0 =
      sizes.getD (i + 1) 0 - d ∧
    ((sizes.set i (sizes.getD i 0 + d)).set (i + 1) (sizes.getD (i + 1) 0 - d)).getD i 0 +
      ((sizes.set i (sizes.getD i 0 + d)).set (i + 1) (sizes.getD (i + 1) 0 - d)).getD (i + 1) 0 =
      sizes.getD i 0 + sizes.getD (i + 1) 0 := by
  have hgi : ((sizes.set i (sizes.getD i 0 + d)).set (i + 1) (sizes.getD (i + 1) 0 - d)).getD i 0 =
      sizes.getD i 0 + d := by
    rw [getD_set_ne _ _ _ _ (by omega), getD_set_self _ _ _ (by omega)]
  have hgj : ((sizes.set i (sizes.getD i 0 + d)).set (i + 1) (sizes.getD (i + 1) 0 - d)).getD (i + 1) 0 =
      sizes.getD (i + 1) 0 - d := by
    rw [getD_set_self]
    simpa using hlen
  exact ⟨resizeSizes_unclamped orient grabOrient i sizes d hguard hleft hright,
    hgi, hgj, by rw [hgi, hgj]; omega⟩

/-- C3: every performed resize mutation (any clamping combination) conserves
the sum of the two adjacent sizes exactly. -/
theorem C3_pair_sum_conserved (orient grabOrient : Orientation) (i : Nat) (d : Int)
    (sizes ns : List Int) (hlen : i + 1 < sizes.length)
    (h : resizeSizes orient grabOrient i d sizes = some ns) :
    ns.getD i 0 + ns.getD (i + 1) 0 = sizes.getD i 0 + sizes.getD (i + 1) 0 := by
  by_cases hguard : sizes.getD i 0 + sizes.getD (i + 1) 0 < groupMin orient
  · unfold resizeSizes at h
    rw [if_pos hguard] at h
    exact Option.noConfusion h
  · unfold resizeSizes at h
    rw [if_neg hguard] at h
    simp only [Option.some.injEq] at h
    subst h
    rw [(getD_set_pair sizes i _ _ hlen).1, (getD_set_pair sizes i _ _ hlen).2]
    simp only [max_def]
    split_ifs <;> omega

/-- C4: when the grab's stored orientation equals the group's own orientation,
every performed resize mutation leaves both adjacent sizes at or above the
per-pane minimum — in particular the leftover pushed back onto the left
sibling when the right sibling clamps can never push the left sibling below
its floor. -/
theorem C4_pane_floor (orient : Orientation) (i : Nat) (d : Int)
    (sizes ns : List Int) (hlen : i + 1 < sizes.length)
    (h : resizeSizes orient orient i d sizes = some ns) :
    sizeMin orient ≤ ns.getD i 0 ∧ sizeMin orient ≤ ns.getD (i + 1) 0 := by
  by_cases hguard : sizes.getD i 0 + sizes.getD (i + 1) 0 < groupMin orient
  · unfold resizeSizes at h
    rw [if_pos hguard] at h
    exact Option.noConfusion h
  · unfold resizeSizes at h
    rw [if_neg hguard] at h
    simp only [Option.some.injEq] at h
    subst h
    rw [groupMin_eq_two_sizeMin] at hguard
    constructor
    · rw [(getD_set_pair sizes i _ _ hlen).1]
      simp only [max_def]
      split_ifs <;> omega
    · rw [(getD_set_pair sizes i _ _ hlen).2]
      simp only [max_def]
      split_ifs <;> omega

/-- C5: for a Vertical group with sizes `[400, 400]` and projected rounded
delta `+200` at boundary `0`, the redistribution clamps the right sibling to
its `360` floor and pushes the leftover `40` back onto the left sibling,
yielding exactly `[440, 360]`. -/
theorem C5_leftover_pushback_example :
    resizeSizes Orientation.Vertical Orientation.Vertical 0 200 [400, 400] =
      some [440, 360] := by decide

/-- Witness for C2 at `orient = grabOrient = Vertical`, `i = 0`, `d = 50`,
`sizes = [500, 500]`. -/
theorem C2_unclamped_conservation_witness :
    resizeSizes Orientation.Vertical Orientation.Vertical 0 50 [500, 500] =
      some ((([500, 500] : List Int).set 0 (([500, 500] : List Int).getD 0 0 + 50)).set 1
        (([500, 500] : List Int).getD 1 0 - 50)) ∧
    ((([500, 500] : List Int).set 0 (([500, 500] : List Int).getD 0 0 + 50)).set 1
        (([500, 500] : List Int).getD 1 0 - 50)).getD 0 0 =
      ([500, 500] : List Int).getD 0 0 + 50 ∧
    ((([500, 500] : List Int).set 0 (([500, 500] : List Int).getD 0 0 + 50)).set 1
        (([500, 500] : List Int).getD 1 0 - 50)).getD 1 0 =
      ([500, 500] : List Int).getD 1 0 - 50 ∧
    ((([500, 500] : List Int).set 0 (([500, 500] : List Int).getD 0 0 + 50)).set 1
        (([500, 500] : List Int).getD 1 0 - 50)).getD 0 0 +
      ((([500, 500] : List Int).set 0 (([500, 500] : List Int).getD 0 0 + 50)).set 1
        (([500, 500] : List Int).getD 1 0 - 50)).getD 1 0 =
      ([500, 500] : List Int).getD 0 0 + ([500, 500] : List Int).getD 1 0 :=
  C2_unclamped_conservation Orientation.Vertical Orientation.Vertical 0 [500, 500] 50
    (by decide) (by decide) (by decide) (by decide)

/-- Witness for C3 at the clamping input `sizes = [400, 400]`, `d = 200`,
whose mutation result is `[440, 360]`. -/
theorem C3_pair_sum_conserved_witness :
    ([440, 360] : List Int).getD 0 0 + ([440, 360] : List Int).getD 1 0 =
      ([400, 400] : List Int).getD 0 0 + ([400, 400] : List Int).getD 1 0 :=
  C3_pair_sum_conserved Orientation.Vertical Orientation.Vertical 0 200 [400, 400] [440, 360]
    (by decide) (by decide)

/-- Witness for C4 at the right-clamping input `sizes = [400, 400]`, `d = 200`. -/
theorem C4_pane_floor_witness :
    sizeMin Orientation.Vertical ≤ ([440, 360] : List Int).getD 0 0 ∧
    sizeMin Orientation.Vertical ≤ ([440, 360] : List Int).getD 1 0 :=
  C4_pane_floor Orientation.Vertical 0 200 [400, 400] [440, 360] (by decide) (by decide)

/-! ## Claims about `ResizeForkGrab::motion` as a whole -/

/-- C1 (counterexample): the combined-minimum guard uses a strict `<`, so the
boundary case `a + b = 720` for a Vertical group is NOT vetoed: with sizes
`[400, 320]` (sum exactly the combined minimum) and projected rounded delta
`-100`, the motion event mutates `sizes` to `[360, 360]`, updates `last_loc`
and enqueues a blocker — refuting the claim's "at or below / boundary case"
reading. -/
theorem C1_boundary_counterexample :
    (400 : Int) + 320 = groupMin Orientation.Vertical ∧
    projectDelta Orientation.Vertical ⟨-100, 0⟩ ⟨0, 0⟩ = -100 ∧
    grabMotion
      { startData := ⟨272, ⟨0, 0⟩⟩, lastLoc := ⟨0, 0⟩, node := 1, output := some 0,
        leftUpIdx := 0, orientation := Orientation.Vertical }
      { queues := [(0, [⟨[(1, ⟨Data.Group Orientation.Vertical [400, 320], [2, 3]⟩),
                         (2, ⟨Data.Window, []⟩), (3, ⟨Data.Window, []⟩)]⟩])],
        pendingBlockers := [] }
      { location := ⟨-100, 0⟩, serial := 0, time := 0 } =
      ({ startData := ⟨272, ⟨0, 0⟩⟩, lastLoc := ⟨-100, 0⟩, node := 1, output := some 0,
         leftUpIdx := 0, orientation := Orientation.Vertical },
       { queues := [(0, [⟨[(1, ⟨Data.Group Orientation.Vertical [360, 360], [2, 3]⟩),
                          (2, ⟨Data.Window, []⟩), (3, ⟨Data.Window, []⟩)]⟩])],
         pendingBlockers := [1] },
       Outcome.applied) := by
  refine ⟨by decide, by with_unfolding_all decide, by with_unfolding_all decide⟩

/-- C1 (amended): if the two adjacent sizes sum to STRICTLY below the
orientation's combined minimum (720 Vertical / 480 Horizontal), a motion event
causes no mutation at all — `sizes`, `last_loc` and the blocker queue are all
unchanged — regardless of the sign or magnitude of the pointer delta.  (At a
sum exactly equal to the combined minimum the code does proceed, see the
counterexample.) -/
theorem C1_strict_guard_no_mutation (g : ResizeForkGrab) (sh : Shell) (ev : MotionEvent)
    (out : Nat) (trees : List Tree) (tree : Tree) (entry : NodeEntry)
    (orient : Orientation) (sizes : List Int)
    (h1 : g.output = some out)
    (h2 : lookupAssoc sh.queues out = some trees)
    (h3 : trees.getLast? = some tree)
    (h4 : lookupAssoc tree.nodes g.node = some entry)
    (h5 : ¬ entry.children.length < g.leftUpIdx + 2)
    (h6 : entry.data = Data.Group orient sizes)
    (h7 : g.leftUpIdx + 1 < sizes.length)
    (h8 : sizes.getD g.leftUpIdx 0 + sizes.getD (g.leftUpIdx + 1) 0 < groupMin orient) :
    grabMotion g sh ev = (g, sh, Outcome.vetoed) := by
  unfold grabMotion
  simp only [h1, h2, h3, h4, h6]
  rw [if_neg h5, if_pos h7]
  unfold resizeSizes
  rw [if_pos h8]

/-- Witness for the amended C1: a Vertical group with sizes `[300, 300]`
(sum 600 < 720) vetoes a delta of `+50`. -/
theorem C1_strict_guard_no_mutation_witness :
    grabMotion
      { startData := ⟨272, ⟨0, 0⟩⟩, lastLoc := ⟨0, 0⟩, node := 1, output := some 0,
        leftUpIdx := 0, orientation := Orientation.Vertical }
      { queues := [(0, [⟨[(1, ⟨Data.Group Orientation.Vertical [300, 300], [2, 3]⟩),
                         (2, ⟨Data.Window, []⟩), (3, ⟨Data.Window, []⟩)]⟩])],
        pendingBlockers := [] }
      { location := ⟨50, 0⟩, serial := 0, time := 0 } =
      ({ startData := ⟨272, ⟨0, 0⟩⟩, lastLoc := ⟨0, 0⟩, node := 1, output := some 0,
         leftUpIdx := 0, orientation := Orientation.Vertical },
       { queues := [(0, [⟨[(1, ⟨Data.Group Orientation.Vertical [300, 300], [2, 3]⟩),
                          (2, ⟨Data.Window, []⟩), (3, ⟨Data.Window, []⟩)]⟩])],
         pendingBlockers := [] },
       Outcome.vetoed) :=
  C1_strict_guard_no_mutation _ _ _ 0
    [⟨[(1, ⟨Data.Group Orientation.Vertical [300, 300], [2, 3]⟩),
       (2, ⟨Data.Window, []⟩), (3, ⟨Data.Window, []⟩)]⟩]
    ⟨[(1, ⟨Data.Group Orientation.Vertical [300, 300], [2, 3]⟩),
      (2, ⟨Data.Window, []⟩), (3, ⟨Data.Window, []⟩)]⟩
    ⟨Data.Group Orientation.Vertical [300, 300], [2, 3]⟩
    Orientation.Vertical [300, 300]
    (by decide) (by decide) (by decide) (by decide) (by decide) (by decide)
    (by decide) (by decide)

/-- C6 (counterexample): a motion event with zero projected delta CAN change
`sizes` and enqueue a blocker when a size starts below the per-pane minimum:
Vertical group `[300, 500]` (sum 800, so the combined guard passes), zero
x-delta — the left pane is clamped up to its 360 floor, giving `[360, 440]`
and a blocker. -/
theorem C6_zero_delta_counterexample :
    projectDelta Orientation.Vertical ⟨0, 7⟩ ⟨0, 0⟩ = 0 ∧
    grabMotion
      { startData := ⟨272, ⟨0, 0⟩⟩, lastLoc := ⟨0, 0⟩, node := 1, output := some 0,
        leftUpIdx := 0, orientation := Orientation.Vertical }
      { queues := [(0, [⟨[(1, ⟨Data.Group Orientation.Vertical [300, 500], [2, 3]⟩),
                         (2, ⟨Data.Window, []⟩), (3, ⟨Data.Window, []⟩)]⟩])],
        pendingBlockers := [] }
      { location := ⟨0, 7⟩, serial := 0, time := 0 } =
      ({ startData := ⟨272, ⟨0, 0⟩⟩, lastLoc := ⟨0, 7⟩, node := 1, output := some 0,
         leftUpIdx := 0, orientation := Orientation.Vertical },
       { queues := [(0, [⟨[(1, ⟨Data.Group Orientation.Vertical [360, 440], [2, 3]⟩),
                          (2, ⟨Data.Window, []⟩), (3, ⟨Data.Window, []⟩)]⟩])],
         pendingBlockers := [1] },
       Outcome.applied) := by
  refine ⟨by with_unfolding_all decide, by with_unfolding_all decide⟩

/-- C6 (amended): a motion event with zero projected rounded delta changes no
entry of the group's `sizes` and enqueues no blocker, PROVIDED both adjacent
sizes are at or above the grab orientation's per-pane minimum when the event
arrives: the whole shell state (trees and blocker queue) is unchanged.
(Starting sizes below the per-pane minimum are clamped up even by a zero
delta, see the counterexample.) -/
theorem C6_zero_delta_no_change (g : ResizeForkGrab) (sh : Shell) (ev : MotionEvent)
    (out : Nat) (trees : List Tree) (tree : Tree) (entry : NodeEntry)
    (orient : Orientation) (sizes : List Int)
    (h1 : g.output = some out)
    (h2 : lookupAssoc sh.queues out = some trees)
    (h3 : trees.getLast? = some tree)
    (h4 : lookupAssoc tree.nodes g.node = some entry)
    (h5 : ¬ entry.children.length < g.leftUpIdx + 2)
    (h6 : entry.data = Data.Group orient sizes)
    (h7 : g.leftUpIdx + 1 < sizes.length)
    (hdelta : projectDelta g.orientation ev.location g.lastLoc = 0)
    (ha : sizeMin g.orientation ≤ sizes.getD g.leftUpIdx 0)
    (hb : sizeMin g.orientation ≤ sizes.getD (g.leftUpIdx + 1) 0) :
    (grabMotion g sh ev).2.1 = sh := by
  unfold grabMotion
  simp only [h1, h2, h3, h4, h6, hdelta]
  rw [if_neg h5, if_pos h7]
  by_cases hguard : sizes.getD g.leftUpIdx 0 + sizes.getD (g.leftUpIdx + 1) 0 <
      groupMin orient
  · unfold resizeSizes
    rw [if_pos hguard]
  · rw [resizeSizes_zero_delta orient g.orientation g.leftUpIdx sizes h7 hguard ha hb]
    have hnt : Tree.mk (setNodeData tree.nodes g.node (Data.Group orient sizes)) = tree := by
      rw [← h6, setNodeData_lookup_self tree.nodes g.node entry h4]
    simp only [hnt, update_positions_self, replaceLast_getLast trees tree h3,
      setAssoc_lookup_self sh.queues out trees h2, List.append_nil]

/-- Witness for the amended C6: Vertical group `[400, 400]`, zero x-delta —
the shell is unchanged. -/
theorem C6_zero_delta_no_change_witness :
    (grabMotion
      { startData := ⟨272, ⟨0, 0⟩⟩, lastLoc := ⟨0, 0⟩, node := 1, output := some 0,
        leftUpIdx := 0, orientation := Orientation.Vertical }
      { queues := [(0, [⟨[(1, ⟨Data.Group Orientation.Vertical [400, 400], [2, 3]⟩),
                         (2, ⟨Data.Window, []⟩), (3, ⟨Data.Window, []⟩)]⟩])],
        pendingBlockers := [] }
      { location := ⟨0, 9⟩, serial := 0, time := 0 }).2.1 =
    { queues := [(0, [⟨[(1, ⟨Data.Group Orientation.Vertical [400, 400], [2, 3]⟩),
                       (2, ⟨Data.Window, []⟩), (3, ⟨Data.Window, []⟩)]⟩])],
      pendingBlockers := [] } :=
  C6_zero_delta_no_change _ _ _ 0
    [⟨[(1, ⟨Data.Group Orientation.Vertical [400, 400], [2, 3]⟩),
       (2, ⟨Data.Window, []⟩), (3, ⟨Data.Window, []⟩)]⟩]
    ⟨[(1, ⟨Data.Group Orientation.Vertical [400, 400], [2, 3]⟩),
      (2, ⟨Data.Window, []⟩), (3, ⟨Data.Window, []⟩)]⟩
    ⟨Data.Group Orientation.Vertical [400, 400], [2, 3]⟩
    Orientation.Vertical [400, 400]
    (by decide) (by decide) (by decide) (by decide) (by decide) (by decide)
    (by decide) (by with_unfolding_all decide) (by decide) (by decide)

/-- C7 (counterexample): when the output weak reference resolves but no
pending-tree queue exists for that output, the grab is NOT unset: the event is
silently skipped with the grab and shell unchanged — refuting the claim that
this case takes the stale-target termination path. -/
theorem C7_missing_queue_counterexample :
    (({ startData := ⟨272, ⟨0, 0⟩⟩, lastLoc := ⟨0, 0⟩, node := 1, output := some 0,
        leftUpIdx := 0, orientation := Orientation.Vertical } : ResizeForkGrab)).output =
      some 0 ∧
    lookupAssoc (([] : List (Nat × List Tree))) 0 = none ∧
    grabMotion
      { startData := ⟨272, ⟨0, 0⟩⟩, lastLoc := ⟨0, 0⟩, node := 1, output := some 0,
        leftUpIdx := 0, orientation := Orientation.Vertical }
      { queues := [], pendingBlockers := [] }
      { location := ⟨25, 0⟩, serial := 0, time := 0 } =
      ({ startData := ⟨272, ⟨0, 0⟩⟩, lastLoc := ⟨0, 0⟩, node := 1, output := some 0,
         leftUpIdx := 0, orientation := Orientation.Vertical },
       { queues := [], pendingBlockers := [] },
       Outcome.skipped) ∧
    Outcome.skipped ≠ Outcome.unsetGrab := by
  refine ⟨by decide, by decide, by with_unfolding_all decide, by decide⟩

/-- C7 (amended): when the output resolves but the pending-tree queue for it
cannot be found, the motion event is skipped exactly like the
output-unresolvable case: nothing is mutated and the grab persists (it is not
unset).  The unset/termination path is taken only for a missing node or a
missing sibling. -/
theorem C7_missing_queue_skips (g : ResizeForkGrab) (sh : Shell) (ev : MotionEvent)
    (out : Nat)
    (h1 : g.output = some out)
    (h2 : lookupAssoc sh.queues out = none) :
    grabMotion g sh ev = (g, sh, Outcome.skipped) := by
  unfold grabMotion
  simp only [h1, h2]

/-- Witness for the amended C7. -/
theorem C7_missing_queue_skips_witness :
    grabMotion
      { startData := ⟨272, ⟨0, 0⟩⟩, lastLoc := ⟨0, 0⟩, node := 1, output := some 3,
        leftUpIdx := 0, orientation := Orientation.Horizontal }
      { queues := [(0, [])], pendingBlockers := [] }
      { location := ⟨25, 0⟩, serial := 0, time := 0 } =
      ({ startData := ⟨272, ⟨0, 0⟩⟩, lastLoc := ⟨0, 0⟩, node := 1, output := some 3,
         leftUpIdx := 0, orientation := Orientation.Horizontal },
       { queues := [(0, [])], pendingBlockers := [] },
       Outcome.skipped) :=
  C7_missing_queue_skips _ _ _ 3 (by decide) (by decide)

/-- C8: on a motion event, if the stored node id is absent from the tree, or
the group's child list no longer has children at both `left_up_idx` and
`left_up_idx + 1`, the grab is terminated (unset) and nothing is mutated:
`sizes`, `last_loc` and the blocker queue are all unchanged. -/
theorem C8_stale_node_unsets (g : ResizeForkGrab) (sh : Shell) (ev : MotionEvent)
    (out : Nat) (trees : List Tree) (tree : Tree)
    (h1 : g.output = some out)
    (h2 : lookupAssoc sh.queues out = some trees)
    (h3 : trees.getLast? = some tree)
    (h : lookupAssoc tree.nodes g.node = none ∨
      ∃ entry, lookupAssoc tree.nodes g.node = some entry ∧
        entry.children.length < g.leftUpIdx + 2) :
    grabMotion g sh ev = (g, sh, Outcome.unsetGrab) := by
  unfold grabMotion
  rcases h with h4 | ⟨entry, h4, h5⟩
  · simp only [h1, h2, h3, h4]
  · simp only [h1, h2, h3, h4]
    rw [if_pos h5]

/-- Witness for C8: mid-drag the target node `1` vanished from the tree. -/
theorem C8_stale_node_unsets_witness :
    grabMotion
      { startData := ⟨272, ⟨0, 0⟩⟩, lastLoc := ⟨0, 0⟩, node := 1, output := some 0,
        leftUpIdx := 0, orientation := Orientation.Vertical }
      { queues := [(0, [⟨[(2, ⟨Data.Window, []⟩)]⟩])], pendingBlockers := [] }
      { location := ⟨25, 0⟩, serial := 0, time := 0 } =
      ({ startData := ⟨272, ⟨0, 0⟩⟩, lastLoc := ⟨0, 0⟩, node := 1, output := some 0,
         leftUpIdx := 0, orientation := Orientation.Vertical },
       { queues := [(0, [⟨[(2, ⟨Data.Window, []⟩)]⟩])], pendingBlockers := [] },
       Outcome.unsetGrab) :=
  C8_stale_node_unsets _ _ _ 0 [⟨[(2, ⟨Data.Window, []⟩)]⟩] ⟨[(2, ⟨Data.Window, []⟩)]⟩
    (by decide) (by decide) (by decide) (Or.inl (by decide))

/-! ## Claims about button handling and grab arming -/

/-- C9: every button event received by the grab is first forwarded to default
handling, and the grab is then unset exactly once if and only if zero buttons
remain pressed afterwards; an event leaving at least one button pressed never
unsets the grab. -/
theorem C9_button_release_terminates (pressed : List Nat) (ev : ButtonEvent) :
    (grabButton pressed ev).1 = pointerDefaultButton pressed ev ∧
    ((grabButton pressed ev).2 = 1 ↔ pointerDefaultButton pressed ev = []) ∧
    ((grabButton pressed ev).2 = 0 ↔ pointerDefaultButton pressed ev ≠ []) := by
  unfold grabButton
  by_cases h : (pointerDefaultButton pressed ev).isEmpty
  · have he : pointerDefaultButton pressed ev = [] := by
      cases hd : pointerDefaultButton pressed ev
      · rfl
      · rw [hd] at h
        exact absurd h (by simp)
    rw [if_pos h]
    simp [he]
  · have he : pointerDefaultButton pressed ev ≠ [] := by
      intro hd
      rw [hd] at h
      exact h rfl
    rw [if_neg h]
    simp [he]

/-- Witness for C9: releasing the last held button (the primary one) unsets
the grab exactly once. -/
theorem C9_button_release_terminates_witness :
    (grabButton [272] ⟨272, ButtonState.Released, 1, 1⟩).1 =
      pointerDefaultButton [272] ⟨272, ButtonState.Released, 1, 1⟩ ∧
    ((grabButton [272] ⟨272, ButtonState.Released, 1, 1⟩).2 = 1 ↔
      pointerDefaultButton [272] ⟨272, ButtonState.Released, 1, 1⟩ = []) ∧
    ((grabButton [272] ⟨272, ButtonState.Released, 1, 1⟩).2 = 0 ↔
      pointerDefaultButton [272] ⟨272, ButtonState.Released, 1, 1⟩ ≠ []) :=
  C9_button_release_terminates [272] ⟨272, ButtonState.Released, 1, 1⟩

/-- C10: on the target, only a press of the primary button (`0x110`) has any
effect, and the effect is deferred — an idle task is appended (the grab slot
is untouched during dispatch), and running that task later installs a
`ResizeForkGrab` whose `last_loc` (and start-data location) is the pointer's
location at that time, carrying the target's node, output, `left_up_idx` and
orientation.  Every other button or state, and all motion, relative-motion
and axis events on the target, change nothing. -/
theorem C10_target_button_arms_grab (t : ResizeForkTarget) (st : SeatState)
    (ev : ButtonEvent) :
    (ev.button = 0x110 ∧ ev.state = ButtonState.Pressed →
      targetButton t st ev =
        { st with idleQueue := st.idleQueue ++
            [{ node := t.node, output := t.output, leftUpIdx := t.leftUpIdx,
               orientation := t.orientation, serial := ev.serial,
               button := ev.button }] } ∧
      (targetButton t st ev).grab = st.grab ∧
      ∀ loc st2, runScheduledGrab
          { node := t.node, output := t.output, leftUpIdx := t.leftUpIdx,
            orientation := t.orientation, serial := ev.serial,
            button := ev.button } loc st2 =
        { st2 with
          grab := some
            ({ startData := { button := ev.button, location := loc },
               lastLoc := loc, node := t.node, output := t.output,
               leftUpIdx := t.leftUpIdx, orientation := t.orientation }) }) ∧
    (¬ (ev.button = 0x110 ∧ ev.state = ButtonState.Pressed) →
      targetButton t st ev = st) ∧
    (∀ mev, targetMotion t st mev = st) ∧
    targetRelativeMotion t st = st ∧
    targetAxis t st = st := by
  refine ⟨fun h => ?_, fun h => ?_, fun _ => rfl, rfl, rfl⟩
  · unfold targetButton
    rw [if_pos h]
    exact ⟨rfl, rfl, fun _ _ => rfl⟩
  · unfold targetButton
    rw [if_neg h]

/-- Witness for C10: a primary-button press on a concrete target queues the
idle task without installing a grab, and running the task installs the grab
seeded with the then-current pointer location. -/
theorem C10_target_button_arms_grab_witness :
    targetButton ⟨1, some 0, 0, Orientation.Vertical⟩ ⟨[], none⟩
        ⟨0x110, ButtonState.Pressed, 5, 9⟩ =
      { idleQueue := [⟨1, some 0, 0, Orientation.Vertical, 5, 0x110⟩],
        grab := none } ∧
    runScheduledGrab ⟨1, some 0, 0, Orientation.Vertical, 5, 0x110⟩ ⟨3, 4⟩
        { idleQueue := [⟨1, some 0, 0, Orientation.Vertical, 5, 0x110⟩],
          grab := none } =
      { idleQueue := [⟨1, some 0, 0, Orientation.Vertical, 5, 0x110⟩],
        grab := some ⟨⟨0x110, ⟨3, 4⟩⟩, ⟨3, 4⟩, 1, some 0, 0,
          Orientation.Vertical⟩ } :=
  ⟨((C10_target_button_arms_grab ⟨1, some 0, 0, Orientation.Vertical⟩ ⟨[], none⟩
      ⟨0x110, ButtonState.Pressed, 5, 9⟩).1 ⟨rfl, rfl⟩).1,
   ((C10_target_button_arms_grab ⟨1, some 0, 0, Orientation.Vertical⟩ ⟨[], none⟩
      ⟨0x110, ButtonState.Pressed, 5, 9⟩).1 ⟨rfl, rfl⟩).2.2 ⟨3, 4⟩
      ⟨[⟨1, some 0, 0, Orientation.Vertical, 5, 0x110⟩], none⟩⟩

end CosmicComp
